import Mathlib

/-!
Shallow embedding of the authentication and session-lifecycle core of the
xiaoyuyu-be backend (src/middlewares/auth.js, src/routes/auth.js,
src/utils/response.js), together with theorems checking the natural-language
specification against it.

Conventions of the embedding:
- Machine time is a `Nat` of milliseconds since the epoch (JavaScript
  `Date.getTime()`); the JWT layer works in seconds, as the jsonwebtoken
  library does, and the handlers convert by dividing by 1000.
- The database is a pair of in-memory tables (`users`,
  `user_refresh_tokens`); SQL statements of the source are translated to
  list operations that preserve row order, as the storage engine does.
- The cryptographic primitives (bcrypt, SHA-256, the random refresh secret)
  are modelled by their contracts: deterministic injective digests, and the
  fresh random secret passed in as an explicit argument.
-/

namespace Auth

/-- Maximum number of failed logins before lockout (src/routes/auth.js line 19). -/
def MAX_FAILED_LOGIN : Nat := 5

/-- Access token lifetime in seconds, default of src/middlewares/auth.js line 11. -/
def ACCESS_TOKEN_EXPIRES_IN : Nat := 86400

/-- Refresh token lifetime in seconds, default of src/middlewares/auth.js line 13. -/
def REFRESH_TOKEN_EXPIRES_IN : Nat := 604800

/-- Remember-me refresh token lifetime in seconds, default of src/middlewares/auth.js line 14. -/
def REFRESH_TOKEN_EXPIRES_IN_REMEMBER : Nat := 2592000

/-- Access token signing secret, default of src/middlewares/auth.js line 7. -/
def ACCESS_TOKEN_SECRET : String := "please_change_access_secret"

/-- Model of the bcrypt password digest: bcrypt.hash is salted in the source,
but its observable contract is that bcrypt.compare succeeds exactly on a
digest produced from the same password; we model it as an injective tagged
string. -/
def bcryptHash (password : String) : String :=
  "$2b$10$" ++ password

/-- Model of bcrypt.compare (src/routes/auth.js line 227): true exactly when
the stored digest was produced from the supplied password. -/
def bcryptCompare (password hash : String) : Bool :=
  hash == bcryptHash password

/-- Model of hashToken (src/middlewares/auth.js lines 22-24): SHA-256 hex
digest of the raw refresh token, modelled as an injective tagged string. -/
def hashToken (token : String) : String :=
  "sha256:" ++ token

/-- Claims carried by an access token: sub (user id), username, role
(src/routes/auth.js lines 254-258). -/
structure AccessClaims where
  sub : Nat
  username : String
  role : String
deriving Repr, DecidableEq

/-- Model of a signed JWT as produced by jwt.sign in generateAccessToken
(src/middlewares/auth.js lines 27-31): the payload, the issued-at and expiry
times in seconds, and the signing secret (standing for the signature). -/
structure Jwt where
  claims : AccessClaims
  iat : Nat
  exp : Nat
  secret : String
deriving Repr, DecidableEq

/-- Model of generateAccessToken (src/middlewares/auth.js lines 27-31):
jwt.sign with expiresIn = ACCESS_TOKEN_EXPIRES_IN stamps exp = iat + TTL. -/
def generateAccessToken (payload : AccessClaims) (nowSec : Nat) : Jwt :=
  { claims := payload
    iat := nowSec
    exp := nowSec + ACCESS_TOKEN_EXPIRES_IN
    secret := ACCESS_TOKEN_SECRET }

/-- Failure modes of jwt.verify: bad signature, or past expiry. -/
inductive VerifyError where
  | invalidToken
  | expired
deriving Repr, DecidableEq

/-- Model of jwt.verify as used by authMiddleware (src/middlewares/auth.js
line 114): rejects a token signed under another secret, rejects a token whose
exp is not in the future (jsonwebtoken treats clock >= exp as expired), and
otherwise yields the embedded claims. -/
def verifyAccessToken (token : Jwt) (nowSec : Nat) : Except VerifyError AccessClaims :=
  if token.secret ≠ ACCESS_TOKEN_SECRET then Except.error VerifyError.invalidToken
  else if token.exp ≤ nowSec then Except.error VerifyError.expired
  else Except.ok token.claims

/-- Row of the users table, the columns read by the login handler
(src/routes/auth.js lines 200-207) plus last_login_at. -/
structure User where
  id : Nat
  username : String
  email : String
  password_hash : String
  role : String
  status : Nat
  failed_login_count : Nat
  is_deleted : Bool
  last_login_at : Option Nat
deriving Repr, DecidableEq

/-- Row of the user_refresh_tokens table, the columns of the INSERT in
createAndStoreRefreshToken (src/middlewares/auth.js lines 42-47). -/
structure RefreshTokenRecord where
  user_id : Nat
  token_hash : String
  remember_me : Bool
  user_agent : Option String
  ip_address : Option String
  expires_at : Nat
  revoked : Bool
deriving Repr, DecidableEq

/-- The database state touched by the auth core: the users table and the
refresh-token ledger. -/
structure Db where
  users : List User
  tokens : List RefreshTokenRecord
deriving Repr, DecidableEq

/-- SELECT ... FROM users WHERE username = ? LIMIT 1
(src/routes/auth.js lines 200-207). -/
def findUserByUsername (db : Db) (username : String) : Option User :=
  db.users.find? fun u => u.username == username

/-- UPDATE users SET ... WHERE id = ?: apply g to every row whose id matches. -/
def updateUsersWhereId (db : Db) (uid : Nat) (g : User → User) : Db :=
  { db with users := db.users.map fun u => if u.id == uid then g u else u }

/-- UPDATE users SET failed_login_count = failed_login_count + 1 WHERE id = ?
(src/routes/auth.js lines 231-238). -/
def incrementFailedCount (db : Db) (uid : Nat) : Db :=
  updateUsersWhereId db uid fun u =>
    { u with failed_login_count := u.failed_login_count + 1 }

/-- UPDATE users SET failed_login_count = 0, last_login_at = NOW() WHERE id = ?
(src/routes/auth.js lines 244-252). -/
def resetFailedCount (db : Db) (uid : Nat) (nowMs : Nat) : Db :=
  updateUsersWhereId db uid fun u =>
    { u with failed_login_count := 0, last_login_at := some nowMs }

/-- Model of createAndStoreRefreshToken (src/middlewares/auth.js lines 34-62):
the random raw secret is supplied as refreshTokenRaw; the row is inserted with
revoked = 0 and expires_at = now + TTL (milliseconds). Returns the raw token,
its absolute expiry, and the new database. -/
def createAndStoreRefreshToken (db : Db) (userId : Nat) (rememberMe : Bool)
    (userAgent ipAddress : Option String) (nowMs : Nat) (refreshTokenRaw : String) :
    (String × Nat) × Db :=
  let tokenHash := hashToken refreshTokenRaw
  let expiresInSeconds :=
    if rememberMe then REFRESH_TOKEN_EXPIRES_IN_REMEMBER else REFRESH_TOKEN_EXPIRES_IN
  let expiresAt := nowMs + expiresInSeconds * 1000
  ((refreshTokenRaw, expiresAt),
   { db with tokens := db.tokens ++
      [⟨userId, tokenHash, rememberMe, userAgent, ipAddress, expiresAt, false⟩] })

/- Message codes of src/utils/response.js (the MESSAGE_CODES table), those
reached by the auth handlers. -/
namespace MESSAGE_CODES

def SUCCESS : String := "SUCCESS"

def LOGIN_SUCCESS : String := "LOGIN_SUCCESS"

def LOGOUT_SUCCESS : String := "LOGOUT_SUCCESS"

def PASSWORD_REQUIRED : String := "PASSWORD_REQUIRED"

def USERNAME_OR_PASSWORD_ERROR : String := "USERNAME_OR_PASSWORD_ERROR"

def ACCOUNT_DISABLED : String := "ACCOUNT_DISABLED"

def ACCOUNT_LOCKED : String := "ACCOUNT_LOCKED"

def UNAUTHORIZED : String := "UNAUTHORIZED"

end MESSAGE_CODES

/-- Response envelope of src/utils/response.js: HTTP status, body code, and
the message code used to pick the message text. -/
structure Response where
  httpStatus : Nat
  code : Int
  messageCode : String
deriving Repr, DecidableEq

/-- Model of success (src/utils/response.js lines 132-141): HTTP 200, code 0. -/
def success (messageCode : String) : Response :=
  ⟨200, 0, messageCode⟩

/-- Model of fail (src/utils/response.js lines 151-160): business failure,
HTTP 200, code -1. -/
def fail (messageCode : String) : Response :=
  ⟨200, -1, messageCode⟩

/-- Model of httpError (src/utils/response.js lines 171-180): transport-level
error; the body code equals the HTTP status. -/
def httpError (httpStatus : Nat) (messageCode : String) : Response :=
  ⟨httpStatus, Int.ofNat httpStatus, messageCode⟩

/-- Which branch of the login handler (src/routes/auth.js lines 191-300) a
request took; ok carries the minted access token and the raw refresh token. -/
inductive LoginOutcome where
  | missingFields
  | userNotFoundOrDeleted
  | disabled
  | locked
  | wrongPassword
  | ok (accessToken : Jwt) (refreshTokenRaw : String)
deriving Repr, DecidableEq

/-- Model of the POST /login handler body (src/routes/auth.js lines 191-295),
the branch taken and the resulting database. The empty string stands for a
missing (falsy) field; freshRaw is the random refresh secret generated inside
createAndStoreRefreshToken. -/
def loginOutcome (db : Db) (username password : String) (rememberMe : Bool)
    (nowMs : Nat) (freshRaw : String) (userAgent ipAddress : Option String) :
    LoginOutcome × Db :=
  if username = "" ∨ password = "" then
    (LoginOutcome.missingFields, db)
  else
    match findUserByUsername db username with
    | none => (LoginOutcome.userNotFoundOrDeleted, db)
    | some user =>
      if user.is_deleted then (LoginOutcome.userNotFoundOrDeleted, db)
      else if user.status = 0 then (LoginOutcome.disabled, db)
      else if MAX_FAILED_LOGIN ≤ user.failed_login_count then (LoginOutcome.locked, db)
      else if bcryptCompare password user.password_hash = false then
        (LoginOutcome.wrongPassword, incrementFailedCount db user.id)
      else
        let db1 := resetFailedCount db user.id nowMs
        let accessToken := generateAccessToken ⟨user.id, user.username, user.role⟩ (nowMs / 1000)
        let r := createAndStoreRefreshToken db1 user.id rememberMe userAgent ipAddress nowMs freshRaw
        (LoginOutcome.ok accessToken r.1.1, r.2)

/-- The response each login branch sends (src/routes/auth.js lines 196, 214,
219, 224, 240, 284-295). -/
def loginResponse : LoginOutcome → Response
  | LoginOutcome.missingFields => fail MESSAGE_CODES.PASSWORD_REQUIRED
  | LoginOutcome.userNotFoundOrDeleted => fail MESSAGE_CODES.USERNAME_OR_PASSWORD_ERROR
  | LoginOutcome.disabled => fail MESSAGE_CODES.ACCOUNT_DISABLED
  | LoginOutcome.locked => fail MESSAGE_CODES.ACCOUNT_LOCKED
  | LoginOutcome.wrongPassword => fail MESSAGE_CODES.USERNAME_OR_PASSWORD_ERROR
  | LoginOutcome.ok _ _ => success MESSAGE_CODES.LOGIN_SUCCESS

/-- The full login handler: outcome mapped to its response envelope. -/
def loginHandler (db : Db) (username password : String) (rememberMe : Bool)
    (nowMs : Nat) (freshRaw : String) (userAgent ipAddress : Option String) :
    Response × Db :=
  let r := loginOutcome db username password rememberMe nowMs freshRaw userAgent ipAddress
  (loginResponse r.1, r.2)

/-- SELECT urt.*, u.username, u.role FROM user_refresh_tokens urt JOIN users u
ON urt.user_id = u.id WHERE urt.token_hash = ? LIMIT 1
(src/routes/auth.js lines 360-375). -/
def refreshLookup (db : Db) (tokenHash : String) : Option (RefreshTokenRecord × User) :=
  (db.tokens.find? fun t => t.token_hash == tokenHash).bind fun t =>
    (db.users.find? fun u => u.id == t.user_id).map fun u => (t, u)

/-- Result of the POST /refresh-token handler: the response, the access token
written to the cookie when one is minted, whether the auth cookies were
cleared, and the database afterwards. -/
structure RefreshResult where
  response : Response
  newAccessToken : Option Jwt
  cookiesCleared : Bool
  db : Db
deriving Repr, DecidableEq

/-- Model of the POST /refresh-token handler (src/routes/auth.js lines
350-409): missing cookie is a bare 401; an unknown or revoked row, or an
expired row, is a 401 that also clears the cookies; otherwise a new access
token is minted from the joined user row and the ledger is left untouched. -/
def refreshToken (db : Db) (cookie : Option String) (nowMs : Nat) : RefreshResult :=
  match cookie with
  | none => ⟨httpError 401 MESSAGE_CODES.UNAUTHORIZED, none, false, db⟩
  | some raw =>
    if raw = "" then ⟨httpError 401 MESSAGE_CODES.UNAUTHORIZED, none, false, db⟩
    else
      let tokenHash := hashToken raw
      match refreshLookup db tokenHash with
      | none => ⟨httpError 401 MESSAGE_CODES.UNAUTHORIZED, none, true, db⟩
      | some (t, u) =>
        if t.revoked then ⟨httpError 401 MESSAGE_CODES.UNAUTHORIZED, none, true, db⟩
        else if t.expires_at ≤ nowMs then
          ⟨httpError 401 MESSAGE_CODES.UNAUTHORIZED, none, true, db⟩
        else
          ⟨success MESSAGE_CODES.SUCCESS,
           some (generateAccessToken ⟨t.user_id, u.username, u.role⟩ (nowMs / 1000)),
           false, db⟩

/-- Row effect of UPDATE user_refresh_tokens SET revoked = 1 WHERE
token_hash = ? AND revoked = 0 (src/middlewares/auth.js lines 147-151). -/
def revokeRow (tokenHash : String) (t : RefreshTokenRecord) : RefreshTokenRecord :=
  if t.token_hash == tokenHash && t.revoked == false then { t with revoked := true } else t

/-- Model of revokeRefreshToken (src/middlewares/auth.js lines 144-153): the
UPDATE applied to every ledger row; an absent (falsy) token is a no-op. -/
def revokeRefreshToken (db : Db) (refreshTokenRaw : String) : Db :=
  if refreshTokenRaw = "" then db
  else { db with tokens := db.tokens.map (revokeRow (hashToken refreshTokenRaw)) }

/-- Result of the POST /logout handler: response, whether the cookies were
cleared, and the database afterwards. -/
structure LogoutResult where
  response : Response
  cookiesCleared : Bool
  db : Db
deriving Repr, DecidableEq

/-- Model of the POST /logout handler (src/routes/auth.js lines 314-331):
revoke the ledger row when a refresh cookie is present, always clear the
cookies, and always answer success (the catch branch answers success too). -/
def logout (db : Db) (cookie : Option String) : LogoutResult :=
  let db1 :=
    match cookie with
    | some raw => if raw ≠ "" then revokeRefreshToken db raw else db
    | none => db
  ⟨success MESSAGE_CODES.LOGOUT_SUCCESS, true, db1⟩

/-- Helper: n consecutive login attempts with the same (wrong) password,
returning the database after them. -/
def iterateWrong (db : Db) (uname pw : String) (rm : Bool) (nowMs : Nat)
    (fresh : String) (ua ip : Option String) : Nat → Db
  | 0 => db
  | n + 1 =>
    (loginOutcome (iterateWrong db uname pw rm nowMs fresh ua ip n)
      uname pw rm nowMs fresh ua ip).2

/-- Concrete user for the lockout-boundary scenarios: enabled, counter 0,
password pw. -/
def demoAlice : User :=
  ⟨1, "alice", "a@x.com", bcryptHash ("pw"), "user", 1, 0, false, none⟩

/-- Concrete one-user database for the lockout-boundary scenarios. -/
def demoDb : Db := ⟨[demoAlice], []⟩

/-- Helper: a find over a mapped list whose mapping preserves the predicate. -/
lemma findUser_updateUsersWhereId (db : Db) (uid : Nat) (g : User → User) (uname : String)
    (hg : ∀ u, (g u).username = u.username) :
    findUserByUsername (updateUsersWhereId db uid g) uname
      = (findUserByUsername db uname).map (fun u => if u.id == uid then g u else u) := by
  unfold findUserByUsername updateUsersWhereId
  have hp : ((fun u : User => u.username == uname) ∘ (fun u => if u.id == uid then g u else u))
      = (fun u : User => u.username == uname) := by
    funext u
    by_cases h : (u.id == uid) = true
    · simp [Function.comp, h, hg]
    · simp [Function.comp, h]
  rw [List.find?_map, hp]

/-- Helper: characterization of a wrong-password login attempt. -/
lemma loginOutcome_wrong (db : Db) (uname pw : String) (rm : Bool) (nowMs : Nat)
    (fresh : String) (ua ip : Option String) (user : User)
    (hu : uname ≠ "") (hp : pw ≠ "")
    (hfind : findUserByUsername db uname = some user)
    (hdel : user.is_deleted = false)
    (hstat : user.status ≠ 0)
    (hcount : user.failed_login_count < MAX_FAILED_LOGIN)
    (hwrong : bcryptCompare pw user.password_hash = false) :
    loginOutcome db uname pw rm nowMs fresh ua ip
      = (LoginOutcome.wrongPassword, incrementFailedCount db user.id) := by
  have hnle : ¬ (MAX_FAILED_LOGIN ≤ user.failed_login_count) := Nat.not_le.mpr hcount
  unfold loginOutcome
  rw [hfind]
  simp [hu, hp, hdel, hstat, hnle, hwrong]

/-- Helper: a wrong-password attempt also bumps the stored counter by one. -/
lemma loginOutcome_wrong_find (db : Db) (uname pw : String) (rm : Bool) (nowMs : Nat)
    (fresh : String) (ua ip : Option String) (user : User)
    (hu : uname ≠ "") (hp : pw ≠ "")
    (hfind : findUserByUsername db uname = some user)
    (hdel : user.is_deleted = false)
    (hstat : user.status ≠ 0)
    (hcount : user.failed_login_count < MAX_FAILED_LOGIN)
    (hwrong : bcryptCompare pw user.password_hash = false) :
    (loginOutcome db uname pw rm nowMs fresh ua ip).1 = LoginOutcome.wrongPassword
    ∧ findUserByUsername (loginOutcome db uname pw rm nowMs fresh ua ip).2 uname
        = some { user with failed_login_count := user.failed_login_count + 1 } := by
  rw [loginOutcome_wrong db uname pw rm nowMs fresh ua ip user hu hp hfind hdel hstat hcount hwrong]
  refine ⟨rfl, ?_⟩
  show findUserByUsername (incrementFailedCount db user.id) uname = _
  unfold incrementFailedCount
  rw [findUser_updateUsersWhereId db user.id
        (fun u => { u with failed_login_count := u.failed_login_count + 1 }) uname
        (fun u => rfl), hfind]
  simp

/-- Helper: a locked account rejects any attempt without touching the state. -/
lemma loginOutcome_locked (db : Db) (uname pw : String) (rm : Bool) (nowMs : Nat)
    (fresh : String) (ua ip : Option String) (user : User)
    (hu : uname ≠ "") (hp : pw ≠ "")
    (hfind : findUserByUsername db uname = some user)
    (hdel : user.is_deleted = false)
    (hstat : user.status ≠ 0)
    (hcount : MAX_FAILED_LOGIN ≤ user.failed_login_count) :
    loginOutcome db uname pw rm nowMs fresh ua ip = (LoginOutcome.locked, db) := by
  unfold loginOutcome
  rw [hfind]
  simp [hu, hp, hdel, hstat, hcount]

/-- Helper: a disabled account rejects any attempt without touching the state. -/
lemma loginOutcome_disabled (db : Db) (uname pw : String) (rm : Bool) (nowMs : Nat)
    (fresh : String) (ua ip : Option String) (user : User)
    (hu : uname ≠ "") (hp : pw ≠ "")
    (hfind : findUserByUsername db uname = some user)
    (hdel : user.is_deleted = false)
    (hstat : user.status = 0) :
    loginOutcome db uname pw rm nowMs fresh ua ip = (LoginOutcome.disabled, db) := by
  unfold loginOutcome
  rw [hfind]
  simp [hu, hp, hdel, hstat]

/-- Helper: characterization of a successful login attempt. -/
lemma loginOutcome_ok (db : Db) (uname pw : String) (rm : Bool) (nowMs : Nat)
    (fresh : String) (ua ip : Option String) (user : User)
    (hu : uname ≠ "") (hp : pw ≠ "")
    (hfind : findUserByUsername db uname = some user)
    (hdel : user.is_deleted = false)
    (hstat : user.status ≠ 0)
    (hcount : user.failed_login_count < MAX_FAILED_LOGIN)
    (hmatch : bcryptCompare pw user.password_hash = true) :
    loginOutcome db uname pw rm nowMs fresh ua ip
      = (LoginOutcome.ok (generateAccessToken ⟨user.id, user.username, user.role⟩ (nowMs / 1000)) fresh,
         (createAndStoreRefreshToken (resetFailedCount db user.id nowMs) user.id rm ua ip nowMs fresh).2) := by
  have hnle : ¬ (MAX_FAILED_LOGIN ≤ user.failed_login_count) := Nat.not_le.mpr hcount
  unfold loginOutcome
  rw [hfind]
  simp [hu, hp, hdel, hstat, hnle, hmatch, createAndStoreRefreshToken]

/-- Helper: inserting a ledger row does not change user lookups. -/
lemma findUser_createAndStore (db : Db) (userId : Nat) (rm : Bool) (ua ip : Option String)
    (nowMs : Nat) (fresh uname : String) :
    findUserByUsername (createAndStoreRefreshToken db userId rm ua ip nowMs fresh).2 uname
      = findUserByUsername db uname := rfl

/-- C1: for an enabled, non-deleted user whose failed_login_count is below 5
and whose password matches the stored hash, login succeeds: it resets
failed_login_count to 0, records the last-login timestamp, issues an access
token whose decoded claims equal the user id, username and role, and inserts
a refresh-ledger row with revoked = false and expires_at equal to now plus
2592000 seconds when rememberMe is true, else 604800 seconds. -/
theorem C1_login_success (db : Db) (uname pw : String) (rm : Bool) (nowMs : Nat)
    (fresh : String) (ua ip : Option String) (user : User)
    (hu : uname ≠ "") (hp : pw ≠ "")
    (hfind : findUserByUsername db uname = some user)
    (hdel : user.is_deleted = false)
    (hstat : user.status ≠ 0)
    (hcount : user.failed_login_count < MAX_FAILED_LOGIN)
    (hmatch : bcryptCompare pw user.password_hash = true) :
    (loginOutcome db uname pw rm nowMs fresh ua ip).1
        = LoginOutcome.ok
            (generateAccessToken ⟨user.id, user.username, user.role⟩ (nowMs / 1000)) fresh
    ∧ findUserByUsername (loginOutcome db uname pw rm nowMs fresh ua ip).2 uname
        = some { user with failed_login_count := 0, last_login_at := some nowMs }
    ∧ (loginOutcome db uname pw rm nowMs fresh ua ip).2.tokens
        = db.tokens ++ [⟨user.id, hashToken fresh, rm, ua, ip,
            nowMs + (if rm then REFRESH_TOKEN_EXPIRES_IN_REMEMBER
                     else REFRESH_TOKEN_EXPIRES_IN) * 1000, false⟩]
    ∧ verifyAccessToken
        (generateAccessToken ⟨user.id, user.username, user.role⟩ (nowMs / 1000)) (nowMs / 1000)
        = Except.ok ⟨user.id, user.username, user.role⟩ := by
  have hok := loginOutcome_ok db uname pw rm nowMs fresh ua ip user
    hu hp hfind hdel hstat hcount hmatch
  rw [hok]
  refine ⟨rfl, ?_, ?_, ?_⟩
  · rw [findUser_createAndStore]
    unfold resetFailedCount
    rw [findUser_updateUsersWhereId db user.id
          (fun u => { u with failed_login_count := 0, last_login_at := some nowMs }) uname
          (fun u => rfl), hfind]
    simp
  · simp [createAndStoreRefreshToken, resetFailedCount, updateUsersWhereId]
  · unfold verifyAccessToken generateAccessToken
    rw [if_neg (by simp), if_neg (by simp [ACCESS_TOKEN_EXPIRES_IN])]

/-- Witness for C1 at a concrete database: a user with counter 3 and matching
password logs in with rememberMe, gets the expected token and ledger row. -/
theorem C1_witness :
    (loginOutcome ⟨[⟨1, "alice", "a@x.com", bcryptHash ("pw"), "user", 1, 3, false, none⟩], []⟩
        ("alice") ("pw") true 5000 ("fr1") none none).1
      = LoginOutcome.ok (generateAccessToken ⟨1, "alice", "user"⟩ (5000 / 1000)) ("fr1")
    ∧ (loginOutcome ⟨[⟨1, "alice", "a@x.com", bcryptHash ("pw"), "user", 1, 3, false, none⟩], []⟩
        ("alice") ("pw") true 5000 ("fr1") none none).2.tokens
      = [⟨1, hashToken ("fr1"), true, none, none,
          5000 + REFRESH_TOKEN_EXPIRES_IN_REMEMBER * 1000, false⟩] := by
  have h := C1_login_success
    ⟨[⟨1, "alice", "a@x.com", bcryptHash ("pw"), "user", 1, 3, false, none⟩], []⟩
    ("alice") ("pw") true 5000 ("fr1") none none
    ⟨1, "alice", "a@x.com", bcryptHash ("pw"), "user", 1, 3, false, none⟩
    (by decide) (by decide) (by decide) rfl (by decide) (by decide) (by decide)
  refine ⟨h.1, ?_⟩
  rw [h.2.2.1]
  simp

/-- C2: for every non-deleted, enabled user with failed_login_count at least
5, login fails with AccountLocked regardless of the supplied password and
leaves the database untouched; and the disabled-status check runs first, so a
disabled user gets AccountDisabled even when also over the lockout
threshold. -/
theorem C2_lockout_before_password (db : Db) (uname pw : String) (rm : Bool)
    (nowMs : Nat) (fresh : String) (ua ip : Option String) (user : User)
    (hu : uname ≠ "") (hp : pw ≠ "")
    (hfind : findUserByUsername db uname = some user)
    (hdel : user.is_deleted = false) :
    (user.status ≠ 0 → MAX_FAILED_LOGIN ≤ user.failed_login_count →
      loginOutcome db uname pw rm nowMs fresh ua ip = (LoginOutcome.locked, db))
    ∧ (user.status = 0 →
      loginOutcome db uname pw rm nowMs fresh ua ip = (LoginOutcome.disabled, db)) := by
  constructor
  · intro hstat hcount
    exact loginOutcome_locked db uname pw rm nowMs fresh ua ip user hu hp hfind hdel hstat hcount
  · intro hstat
    exact loginOutcome_disabled db uname pw rm nowMs fresh ua ip user hu hp hfind hdel hstat

/-- Witness for C2: a locked user with the correct password is still rejected
with AccountLocked and the state is unchanged; a disabled user over the
threshold gets AccountDisabled. -/
theorem C2_witness :
    loginOutcome ⟨[⟨1, "carol", "c@x.com", bcryptHash ("pw"), "user", 1, 5, false, none⟩], []⟩
        ("carol") ("pw") false 0 ("fr") none none
      = (LoginOutcome.locked,
         ⟨[⟨1, "carol", "c@x.com", bcryptHash ("pw"), "user", 1, 5, false, none⟩], []⟩)
    ∧ loginOutcome ⟨[⟨2, "dave", "d@x.com", bcryptHash ("pw"), "user", 0, 7, false, none⟩], []⟩
        ("dave") ("pw") false 0 ("fr") none none
      = (LoginOutcome.disabled,
         ⟨[⟨2, "dave", "d@x.com", bcryptHash ("pw"), "user", 0, 7, false, none⟩], []⟩) := by
  constructor
  · exact (C2_lockout_before_password
      ⟨[⟨1, "carol", "c@x.com", bcryptHash ("pw"), "user", 1, 5, false, none⟩], []⟩
      ("carol") ("pw") false 0 ("fr") none none
      ⟨1, "carol", "c@x.com", bcryptHash ("pw"), "user", 1, 5, false, none⟩
      (by decide) (by decide) (by decide) rfl).1 (by decide) (by decide)
  · exact (C2_lockout_before_password
      ⟨[⟨2, "dave", "d@x.com", bcryptHash ("pw"), "user", 0, 7, false, none⟩], []⟩
      ("dave") ("pw") false 0 ("fr") none none
      ⟨2, "dave", "d@x.com", bcryptHash ("pw"), "user", 0, 7, false, none⟩
      (by decide) (by decide) (by decide) rfl).2 rfl

/-- Helper: as long as the counter stays at or below the threshold, n wrong
attempts raise the stored counter by exactly n. -/
lemma iterateWrong_find (db : Db) (uname pw : String) (rm : Bool) (nowMs : Nat)
    (fresh : String) (ua ip : Option String) (user : User)
    (hu : uname ≠ "") (hp : pw ≠ "")
    (hfind : findUserByUsername db uname = some user)
    (hdel : user.is_deleted = false)
    (hstat : user.status ≠ 0)
    (hwrong : bcryptCompare pw user.password_hash = false) :
    ∀ n, user.failed_login_count + n ≤ MAX_FAILED_LOGIN →
      findUserByUsername (iterateWrong db uname pw rm nowMs fresh ua ip n) uname
        = some { user with failed_login_count := user.failed_login_count + n } := by
  intro n
  induction n with
  | zero =>
    intro _
    exact hfind
  | succ n ih =>
    intro hle
    have hfn := ih (by omega)
    have hstep := loginOutcome_wrong_find
      (iterateWrong db uname pw rm nowMs fresh ua ip n) uname pw rm nowMs fresh ua ip
      { user with failed_login_count := user.failed_login_count + n }
      hu hp hfn hdel hstat
      (show user.failed_login_count + n < MAX_FAILED_LOGIN by omega) hwrong
    simp only [iterateWrong]
    exact hstep.2

/-- Helper: a successful attempt resets the stored counter and stamps the
last-login time. -/
lemma loginOutcome_ok_find (db : Db) (uname pw : String) (rm : Bool) (nowMs : Nat)
    (fresh : String) (ua ip : Option String) (user : User)
    (hu : uname ≠ "") (hp : pw ≠ "")
    (hfind : findUserByUsername db uname = some user)
    (hdel : user.is_deleted = false)
    (hstat : user.status ≠ 0)
    (hcount : user.failed_login_count < MAX_FAILED_LOGIN)
    (hmatch : bcryptCompare pw user.password_hash = true) :
    (loginOutcome db uname pw rm nowMs fresh ua ip).1
        = LoginOutcome.ok
            (generateAccessToken ⟨user.id, user.username, user.role⟩ (nowMs / 1000)) fresh
    ∧ findUserByUsername (loginOutcome db uname pw rm nowMs fresh ua ip).2 uname
        = some { user with failed_login_count := 0, last_login_at := some nowMs } := by
  have hok := loginOutcome_ok db uname pw rm nowMs fresh ua ip user
    hu hp hfind hdel hstat hcount hmatch
  rw [hok]
  refine ⟨rfl, ?_⟩
  rw [findUser_createAndStore]
  unfold resetFailedCount
  rw [findUser_updateUsersWhereId db user.id
        (fun u => { u with failed_login_count := 0, last_login_at := some nowMs }) uname
        (fun u => rfl), hfind]
  simp

/-- C3 counterexample: after exactly 5 consecutive wrong-password attempts
from counter 0, the 5th attempt does return InvalidCredentials and the
counter is exactly 5, but the correct-password attempt made immediately after
is rejected with AccountLocked instead of succeeding, because the handler
checks counter at least 5 before comparing the password. -/
theorem C3_counterexample :
    (loginOutcome (iterateWrong demoDb ("alice") ("bad") false 0 ("fr") none none 4)
        ("alice") ("bad") false 0 ("fr") none none).1 = LoginOutcome.wrongPassword
    ∧ Option.map User.failed_login_count
        (findUserByUsername
          (iterateWrong demoDb ("alice") ("bad") false 0 ("fr") none none 5) ("alice"))
        = some 5
    ∧ (loginOutcome (iterateWrong demoDb ("alice") ("bad") false 0 ("fr") none none 5)
        ("alice") ("pw") false 0 ("fr") none none).1 = LoginOutcome.locked := by
  decide

/-- C3 amended: starting from counter 0, the 5th consecutive wrong-password
attempt still returns InvalidCredentials and leaves the counter at exactly 5;
a correct-password attempt made immediately after, with the counter at the
threshold 5, fails with AccountLocked; a correct attempt made while the
counter is still below the threshold (here after 4 failures) succeeds and
resets the counter to 0. -/
theorem C3_amended (db : Db) (uname pwBad pwGood : String) (rm : Bool) (nowMs : Nat)
    (fresh : String) (ua ip : Option String) (user : User)
    (hu : uname ≠ "") (hb : pwBad ≠ "") (hg : pwGood ≠ "")
    (hfind : findUserByUsername db uname = some user)
    (hdel : user.is_deleted = false)
    (hstat : user.status ≠ 0)
    (hzero : user.failed_login_count = 0)
    (hwrong : bcryptCompare pwBad user.password_hash = false)
    (hmatch : bcryptCompare pwGood user.password_hash = true) :
    (loginOutcome (iterateWrong db uname pwBad rm nowMs fresh ua ip 4)
        uname pwBad rm nowMs fresh ua ip).1 = LoginOutcome.wrongPassword
    ∧ Option.map User.failed_login_count
        (findUserByUsername (iterateWrong db uname pwBad rm nowMs fresh ua ip 5) uname)
        = some 5
    ∧ (loginOutcome (iterateWrong db uname pwBad rm nowMs fresh ua ip 5)
        uname pwGood rm nowMs fresh ua ip).1 = LoginOutcome.locked
    ∧ (loginOutcome (iterateWrong db uname pwBad rm nowMs fresh ua ip 4)
        uname pwGood rm nowMs fresh ua ip).1
        = LoginOutcome.ok
            (generateAccessToken ⟨user.id, user.username, user.role⟩ (nowMs / 1000)) fresh
    ∧ Option.map User.failed_login_count
        (findUserByUsername
          (loginOutcome (iterateWrong db uname pwBad rm nowMs fresh ua ip 4)
            uname pwGood rm nowMs fresh ua ip).2 uname) = some 0 := by
  have h4 := iterateWrong_find db uname pwBad rm nowMs fresh ua ip user
    hu hb hfind hdel hstat hwrong 4 (by simp [MAX_FAILED_LOGIN, hzero])
  have h5 := iterateWrong_find db uname pwBad rm nowMs fresh ua ip user
    hu hb hfind hdel hstat hwrong 5 (by simp [MAX_FAILED_LOGIN, hzero])
  have hc4 : user.failed_login_count + 4 < MAX_FAILED_LOGIN := by
    simp [MAX_FAILED_LOGIN, hzero]
  have hc5 : MAX_FAILED_LOGIN ≤ user.failed_login_count + 5 := by
    simp [MAX_FAILED_LOGIN, hzero]
  refine ⟨?_, ?_, ?_, ?_, ?_⟩
  · exact (loginOutcome_wrong_find
      (iterateWrong db uname pwBad rm nowMs fresh ua ip 4) uname pwBad rm nowMs fresh ua ip
      { user with failed_login_count := user.failed_login_count + 4 }
      hu hb h4 hdel hstat hc4 hwrong).1
  · rw [h5]
    simp [hzero]
  · have hl := loginOutcome_locked
      (iterateWrong db uname pwBad rm nowMs fresh ua ip 5) uname pwGood rm nowMs fresh ua ip
      { user with failed_login_count := user.failed_login_count + 5 }
      hu hg h5 hdel hstat hc5
    rw [hl]
  · exact (loginOutcome_ok_find
      (iterateWrong db uname pwBad rm nowMs fresh ua ip 4) uname pwGood rm nowMs fresh ua ip
      { user with failed_login_count := user.failed_login_count + 4 }
      hu hg h4 hdel hstat hc4 hmatch).1
  · rw [(loginOutcome_ok_find
      (iterateWrong db uname pwBad rm nowMs fresh ua ip 4) uname pwGood rm nowMs fresh ua ip
      { user with failed_login_count := user.failed_login_count + 4 }
      hu hg h4 hdel hstat hc4 hmatch).2]
    simp

/-- Witness for C3 amended at the concrete scenario database. -/
theorem C3_amended_witness :
    (loginOutcome (iterateWrong demoDb ("alice") ("bad") false 0 ("fr") none none 5)
        ("alice") ("pw") false 0 ("fr") none none).1 = LoginOutcome.locked
    ∧ (loginOutcome (iterateWrong demoDb ("alice") ("bad") false 0 ("fr") none none 4)
        ("alice") ("pw") false 0 ("fr") none none).1
        = LoginOutcome.ok (generateAccessToken ⟨1, "alice", "user"⟩ (0 / 1000)) ("fr") := by
  have h := C3_amended demoDb ("alice") ("bad") ("pw") false 0 ("fr") none none demoAlice
    (by decide) (by decide) (by decide) (by decide) rfl (by decide) rfl (by decide) (by decide)
  exact ⟨h.2.2.1, h.2.2.2.1⟩

/-- C4 counterexample: starting from counter 0, the response to the 5th
consecutive wrong-password attempt is InvalidCredentials, not AccountLocked;
the counter only reaches the threshold on the 5th failure, so AccountLocked
first appears on the 6th attempt. -/
theorem C4_counterexample :
    (loginOutcome (iterateWrong demoDb ("alice") ("bad") false 0 ("fr") none none 4)
        ("alice") ("bad") false 0 ("fr") none none).1 = LoginOutcome.wrongPassword
    ∧ loginResponse
        (loginOutcome (iterateWrong demoDb ("alice") ("bad") false 0 ("fr") none none 4)
          ("alice") ("bad") false 0 ("fr") none none).1
        = fail MESSAGE_CODES.USERNAME_OR_PASSWORD_ERROR
    ∧ (loginOutcome (iterateWrong demoDb ("alice") ("bad") false 0 ("fr") none none 5)
        ("alice") ("bad") false 0 ("fr") none none).1 = LoginOutcome.locked := by
  decide

/-- C4 amended: with the counter at 4 (after four failures), a 5th wrong
attempt still returns InvalidCredentials and raises the counter to 5; once
the counter is 5, every further attempt is answered with AccountLocked and
the state is left unchanged. -/
theorem C4_amended (db : Db) (uname pw : String) (rm : Bool) (nowMs : Nat)
    (fresh : String) (ua ip : Option String) (user : User)
    (hu : uname ≠ "") (hp : pw ≠ "")
    (hfind : findUserByUsername db uname = some user)
    (hdel : user.is_deleted = false)
    (hstat : user.status ≠ 0)
    (hwrong : bcryptCompare pw user.password_hash = false) :
    (user.failed_login_count = 4 →
      (loginOutcome db uname pw rm nowMs fresh ua ip).1 = LoginOutcome.wrongPassword
      ∧ Option.map User.failed_login_count
          (findUserByUsername (loginOutcome db uname pw rm nowMs fresh ua ip).2 uname)
          = some 5)
    ∧ (user.failed_login_count = 5 →
      loginOutcome db uname pw rm nowMs fresh ua ip = (LoginOutcome.locked, db)) := by
  constructor
  · intro hc4
    have h := loginOutcome_wrong_find db uname pw rm nowMs fresh ua ip user
      hu hp hfind hdel hstat (by simp [MAX_FAILED_LOGIN, hc4]) hwrong
    refine ⟨h.1, ?_⟩
    rw [h.2]
    simp [hc4]
  · intro hc5
    exact loginOutcome_locked db uname pw rm nowMs fresh ua ip user
      hu hp hfind hdel hstat (by simp [MAX_FAILED_LOGIN, hc5])

/-- Witness for C4 amended at a concrete database with the counter at 4. -/
theorem C4_amended_witness :
    (loginOutcome ⟨[⟨1, "erin", "e@x.com", bcryptHash ("pw"), "user", 1, 4, false, none⟩], []⟩
        ("erin") ("bad") false 0 ("fr") none none).1 = LoginOutcome.wrongPassword
    ∧ Option.map User.failed_login_count
        (findUserByUsername
          (loginOutcome ⟨[⟨1, "erin", "e@x.com", bcryptHash ("pw"), "user", 1, 4, false, none⟩], []⟩
            ("erin") ("bad") false 0 ("fr") none none).2 ("erin"))
        = some 5 := by
  exact (C4_amended ⟨[⟨1, "erin", "e@x.com", bcryptHash ("pw"), "user", 1, 4, false, none⟩], []⟩
      ("erin") ("bad") false 0 ("fr") none none
      ⟨1, "erin", "e@x.com", bcryptHash ("pw"), "user", 1, 4, false, none⟩
      (by decide) (by decide) (by decide) rfl (by decide) (by decide)).1 rfl

/-- C5: a refresh request whose presented raw token hashes to no ledger row,
or to a revoked row, or to a row whose expiry is not in the future, fails
with a 401 response, clears the session cookies, never issues an access
token, and leaves the database untouched. -/
theorem C5_refresh_invalid (db : Db) (raw : String) (nowMs : Nat)
    (hraw : raw ≠ "")
    (hbad : ∀ t u, refreshLookup db (hashToken raw) = some (t, u) →
      t.revoked = true ∨ t.expires_at ≤ nowMs) :
    (refreshToken db (some raw) nowMs).response.httpStatus = 401
    ∧ (refreshToken db (some raw) nowMs).newAccessToken = none
    ∧ (refreshToken db (some raw) nowMs).cookiesCleared = true
    ∧ (refreshToken db (some raw) nowMs).db = db := by
  simp only [refreshToken]
  rw [if_neg hraw]
  cases hl : refreshLookup db (hashToken raw) with
  | none => simp [hl, httpError]
  | some tu =>
    obtain ⟨t, u⟩ := tu
    rcases hbad t u hl with hr | he
    · simp [hl, hr, httpError]
    · by_cases hrev : t.revoked = true
      · simp [hl, hrev, httpError]
      · simp [hl, hrev, he, httpError]

/-- Witness for C5: an unknown raw token is rejected with 401, the cookies
are cleared, and no token is minted. -/
theorem C5_witness :
    (refreshToken ⟨[], []⟩ (some ("rt")) 0).newAccessToken = none
    ∧ (refreshToken ⟨[], []⟩ (some ("rt")) 0).response.httpStatus = 401
    ∧ (refreshToken ⟨[], []⟩ (some ("rt")) 0).cookiesCleared = true := by
  have h := C5_refresh_invalid ⟨[], []⟩ ("rt") 0 (by decide)
    (by intro t u hl; simp [refreshLookup] at hl)
  exact ⟨h.2.1, h.1, h.2.2.1⟩

/-- Helper: a valid, unrevoked, unexpired refresh token mints a new access
token from the joined user row and changes nothing. -/
lemma refreshToken_valid (db : Db) (raw : String) (nowMs : Nat)
    (t : RefreshTokenRecord) (u : User)
    (hraw : raw ≠ "")
    (hlook : refreshLookup db (hashToken raw) = some (t, u))
    (hrev : t.revoked = false)
    (hexp : nowMs < t.expires_at) :
    refreshToken db (some raw) nowMs
      = ⟨success MESSAGE_CODES.SUCCESS,
         some (generateAccessToken ⟨t.user_id, u.username, u.role⟩ (nowMs / 1000)),
         false, db⟩ := by
  simp only [refreshToken]
  rw [if_neg hraw]
  simp [hlook, hrev, Nat.not_le.mpr hexp]

/-- C6: a refresh request with a known, unrevoked, unexpired token issues a
new access token whose claims are the user id, username and role of the
joined row, leaves the refresh ledger (and the whole database) unmodified,
and the same raw token still works for a second refresh before expiry. -/
theorem C6_refresh_no_rotation (db : Db) (raw : String) (nowMs nowMs2 : Nat)
    (t : RefreshTokenRecord) (u : User)
    (hraw : raw ≠ "")
    (hlook : refreshLookup db (hashToken raw) = some (t, u))
    (hrev : t.revoked = false)
    (hexp : nowMs < t.expires_at)
    (hexp2 : nowMs2 < t.expires_at) :
    (refreshToken db (some raw) nowMs).response = success MESSAGE_CODES.SUCCESS
    ∧ (refreshToken db (some raw) nowMs).newAccessToken
        = some (generateAccessToken ⟨t.user_id, u.username, u.role⟩ (nowMs / 1000))
    ∧ (refreshToken db (some raw) nowMs).db = db
    ∧ (refreshToken (refreshToken db (some raw) nowMs).db (some raw) nowMs2).newAccessToken
        = some (generateAccessToken ⟨t.user_id, u.username, u.role⟩ (nowMs2 / 1000)) := by
  have h1 := refreshToken_valid db raw nowMs t u hraw hlook hrev hexp
  have h2 := refreshToken_valid db raw nowMs2 t u hraw hlook hrev hexp2
  rw [h1]
  exact ⟨rfl, rfl, rfl, by rw [show (RefreshResult.mk (success MESSAGE_CODES.SUCCESS)
    (some (generateAccessToken ⟨t.user_id, u.username, u.role⟩ (nowMs / 1000))) false db).db
      = db from rfl, h2]⟩

/-- Witness for C6 at a concrete database: two refreshes with the same raw
token both succeed without modifying the ledger. -/
theorem C6_witness :
    (refreshToken ⟨[⟨1, "bob", "b@x.com", bcryptHash ("pw"), "user", 1, 0, false, none⟩],
        [⟨1, hashToken ("rt"), false, none, none, 5000, false⟩]⟩ (some ("rt")) 1000).db
      = ⟨[⟨1, "bob", "b@x.com", bcryptHash ("pw"), "user", 1, 0, false, none⟩],
         [⟨1, hashToken ("rt"), false, none, none, 5000, false⟩]⟩
    ∧ (refreshToken (refreshToken ⟨[⟨1, "bob", "b@x.com", bcryptHash ("pw"), "user", 1, 0, false, none⟩],
        [⟨1, hashToken ("rt"), false, none, none, 5000, false⟩]⟩ (some ("rt")) 1000).db
        (some ("rt")) 2000).newAccessToken
      = some (generateAccessToken ⟨1, "bob", "user"⟩ (2000 / 1000)) := by
  have h := C6_refresh_no_rotation
    ⟨[⟨1, "bob", "b@x.com", bcryptHash ("pw"), "user", 1, 0, false, none⟩],
     [⟨1, hashToken ("rt"), false, none, none, 5000, false⟩]⟩
    ("rt") 1000 2000
    ⟨1, hashToken ("rt"), false, none, none, 5000, false⟩
    ⟨1, "bob", "b@x.com", bcryptHash ("pw"), "user", 1, 0, false, none⟩
    (by decide) (by decide) rfl (by decide) (by decide)
  exact ⟨h.2.2.1, h.2.2.2⟩

/-- C7 counterexample: a user whose status is disabled but who holds a valid,
unrevoked, unexpired refresh token still gets a fresh access token from the
refresh endpoint, because the refresh handler never consults the status
column of the joined user row. -/
theorem C7_counterexample :
    (refreshToken ⟨[⟨1, "bob", "b@x.com", bcryptHash ("pw"), "user", 0, 0, false, none⟩],
        [⟨1, hashToken ("rt"), false, none, none, 1000, false⟩]⟩ (some ("rt")) 0).newAccessToken
      = some (generateAccessToken ⟨1, "bob", "user"⟩ 0)
    ∧ (refreshToken ⟨[⟨1, "bob", "b@x.com", bcryptHash ("pw"), "user", 0, 0, false, none⟩],
        [⟨1, hashToken ("rt"), false, none, none, 1000, false⟩]⟩ (some ("rt")) 0).response.code = 0 := by
  decide

/-- C7 amended: login never issues an access token for a user whose status is
disabled, failing with AccountDisabled before any password check or token
minting; refresh, however, does not re-check the user status, so a known,
unrevoked, unexpired refresh token keeps minting access tokens regardless of
the status of its user. -/
theorem C7_amended (db : Db) (uname pw : String) (rm : Bool) (nowMs : Nat)
    (fresh raw : String) (ua ip : Option String) (user : User)
    (t : RefreshTokenRecord) (u : User)
    (hu : uname ≠ "") (hp : pw ≠ "") (hraw : raw ≠ "") :
    (findUserByUsername db uname = some user → user.is_deleted = false → user.status = 0 →
      loginOutcome db uname pw rm nowMs fresh ua ip = (LoginOutcome.disabled, db))
    ∧ (refreshLookup db (hashToken raw) = some (t, u) → t.revoked = false →
        nowMs < t.expires_at → u.status = 0 →
      (refreshToken db (some raw) nowMs).newAccessToken
        = some (generateAccessToken ⟨t.user_id, u.username, u.role⟩ (nowMs / 1000))) := by
  constructor
  · intro hfind hdel hstat
    exact loginOutcome_disabled db uname pw rm nowMs fresh ua ip user hu hp hfind hdel hstat
  · intro hlook hrev hexp _
    rw [refreshToken_valid db raw nowMs t u hraw hlook hrev hexp]

/-- Witness for C7 amended: the disabled user is refused at login yet served
by refresh at the same concrete database. -/
theorem C7_amended_witness :
    loginOutcome ⟨[⟨1, "bob", "b@x.com", bcryptHash ("pw"), "user", 0, 0, false, none⟩],
        [⟨1, hashToken ("rt"), false, none, none, 1000, false⟩]⟩
        ("bob") ("pw") false 0 ("fr") none none
      = (LoginOutcome.disabled,
         ⟨[⟨1, "bob", "b@x.com", bcryptHash ("pw"), "user", 0, 0, false, none⟩],
          [⟨1, hashToken ("rt"), false, none, none, 1000, false⟩]⟩)
    ∧ (refreshToken ⟨[⟨1, "bob", "b@x.com", bcryptHash ("pw"), "user", 0, 0, false, none⟩],
        [⟨1, hashToken ("rt"), false, none, none, 1000, false⟩]⟩ (some ("rt")) 0).newAccessToken
      = some (generateAccessToken ⟨1, "bob", "user"⟩ (0 / 1000)) := by
  have h := C7_amended
    ⟨[⟨1, "bob", "b@x.com", bcryptHash ("pw"), "user", 0, 0, false, none⟩],
     [⟨1, hashToken ("rt"), false, none, none, 1000, false⟩]⟩
    ("bob") ("pw") false 0 ("fr") ("rt") none none
    ⟨1, "bob", "b@x.com", bcryptHash ("pw"), "user", 0, 0, false, none⟩
    ⟨1, hashToken ("rt"), false, none, none, 1000, false⟩
    ⟨1, "bob", "b@x.com", bcryptHash ("pw"), "user", 0, 0, false, none⟩
    (by decide) (by decide) (by decide)
  exact ⟨h.1 rfl rfl rfl, h.2 rfl rfl (by decide) rfl⟩

/-- Helper: applying the revocation row update twice equals applying it
once. -/
lemma revokeRow_idem (h : String) (t : RefreshTokenRecord) :
    revokeRow h (revokeRow h t) = revokeRow h t := by
  unfold revokeRow
  by_cases hc : (t.token_hash == h && t.revoked == false) = true
  · rw [if_pos hc]
    simp
  · rw [if_neg hc, if_neg hc]

/-- Helper: revoking the same raw token twice is the same as revoking it
once. -/
lemma revokeRefreshToken_idem (db : Db) (raw : String) :
    revokeRefreshToken (revokeRefreshToken db raw) raw = revokeRefreshToken db raw := by
  obtain ⟨us, ts⟩ := db
  unfold revokeRefreshToken
  by_cases h : raw = ""
  · simp [h]
  · simp only [if_neg h]
    congr 1
    rw [List.map_map]
    exact List.map_congr_left fun t _ => revokeRow_idem (hashToken raw) t

/-- Helper: after a revocation pass, every ledger row carrying the hash of
the revoked raw token is marked revoked. -/
lemma revokeRefreshToken_marks (db : Db) (raw : String) (hraw : raw ≠ "") :
    ∀ t ∈ (revokeRefreshToken db raw).tokens, t.token_hash = hashToken raw → t.revoked = true := by
  intro t ht hhash
  unfold revokeRefreshToken at ht
  rw [if_neg hraw] at ht
  simp only [List.mem_map] at ht
  obtain ⟨s, hs, hgs⟩ := ht
  subst hgs
  unfold revokeRow at hhash ⊢
  by_cases hc : (s.token_hash == hashToken raw && s.revoked == false) = true
  · rw [if_pos hc]
  · rw [if_neg hc] at hhash ⊢
    cases hr : s.revoked with
    | true => rfl
    | false =>
      refine absurd ?_ hc
      rw [Bool.and_eq_true]
      exact ⟨by simp [hhash], by simp [hr]⟩

/-- C8: logout is idempotent and never fails: for any state and any cookie
(absent, unknown, valid or already revoked) it answers success and clears the
cookies; when a raw token is presented, every ledger row carrying its hash is
revoked; and running logout a second time with the same cookie changes
nothing further. -/
theorem C8_logout_idempotent (db : Db) (cookie : Option String) :
    (logout db cookie).response = success MESSAGE_CODES.LOGOUT_SUCCESS
    ∧ (logout db cookie).cookiesCleared = true
    ∧ (∀ raw, cookie = some raw → raw ≠ "" →
        ∀ t ∈ (logout db cookie).db.tokens, t.token_hash = hashToken raw → t.revoked = true)
    ∧ logout (logout db cookie).db cookie = logout db cookie := by
  refine ⟨rfl, rfl, ?_, ?_⟩
  · intro raw hc hraw t ht hhash
    subst hc
    have : (logout db (some raw)).db = revokeRefreshToken db raw := by
      simp [logout, hraw]
    rw [this] at ht
    exact revokeRefreshToken_marks db raw hraw t ht hhash
  · cases cookie with
    | none => rfl
    | some raw =>
      by_cases hraw : raw = ""
      · simp [logout, hraw]
      · simp [logout, hraw, revokeRefreshToken_idem]

/-- Witness for C8 at a concrete ledger with one matching unrevoked row. -/
theorem C8_witness :
    (logout ⟨[], [⟨1, hashToken ("rt"), false, none, none, 99, false⟩]⟩ (some ("rt"))).response
      = success MESSAGE_CODES.LOGOUT_SUCCESS
    ∧ (logout ⟨[], [⟨1, hashToken ("rt"), false, none, none, 99, false⟩]⟩ (some ("rt"))).db.tokens
      = [⟨1, hashToken ("rt"), false, none, none, 99, true⟩]
    ∧ logout (logout ⟨[], [⟨1, hashToken ("rt"), false, none, none, 99, false⟩]⟩
          (some ("rt"))).db (some ("rt"))
      = logout ⟨[], [⟨1, hashToken ("rt"), false, none, none, 99, false⟩]⟩ (some ("rt")) := by
  have h := C8_logout_idempotent ⟨[], [⟨1, hashToken ("rt"), false, none, none, 99, false⟩]⟩
    (some ("rt"))
  exact ⟨h.1, by decide, h.2.2.2⟩

/-- C9: verifying an access token signed over given claims returns exactly
those claims at any clock strictly inside the TTL window, and fails with
Expired as soon as the clock reaches the TTL boundary. -/
theorem C9_roundtrip (claims : AccessClaims) (t0 t : Nat) :
    (t < t0 + ACCESS_TOKEN_EXPIRES_IN →
      verifyAccessToken (generateAccessToken claims t0) t = Except.ok claims)
    ∧ (t0 + ACCESS_TOKEN_EXPIRES_IN ≤ t →
      verifyAccessToken (generateAccessToken claims t0) t = Except.error VerifyError.expired) := by
  constructor
  · intro h
    unfold verifyAccessToken generateAccessToken
    rw [if_neg (by simp), if_neg (by simpa using Nat.not_le.mpr h)]
  · intro h
    unfold verifyAccessToken generateAccessToken
    rw [if_neg (by simp), if_pos (by simpa using h)]

/-- Witness for C9 just inside and just at the default 86400 second TTL. -/
theorem C9_witness :
    verifyAccessToken (generateAccessToken ⟨1, "alice", "user"⟩ 0) 86399
      = Except.ok ⟨1, "alice", "user"⟩
    ∧ verifyAccessToken (generateAccessToken ⟨1, "alice", "user"⟩ 0) 86400
      = Except.error VerifyError.expired := by
  exact ⟨(C9_roundtrip ⟨1, "alice", "user"⟩ 0 86399).1 (by decide),
         (C9_roundtrip ⟨1, "alice", "user"⟩ 0 86400).2 (by decide)⟩

/-- C10: every login failure for bad credentials, a disabled account or a
locked account is transported as HTTP 200 with body code -1, never as HTTP
401 or 403; and the response for an unknown username is identical to the one
for a wrong password. -/
theorem C10_login_failures_http200 (db : Db) (uname pw : String) (rm : Bool)
    (nowMs : Nat) (fresh : String) (ua ip : Option String) :
    ((loginOutcome db uname pw rm nowMs fresh ua ip).1 = LoginOutcome.userNotFoundOrDeleted
      ∨ (loginOutcome db uname pw rm nowMs fresh ua ip).1 = LoginOutcome.wrongPassword
      ∨ (loginOutcome db uname pw rm nowMs fresh ua ip).1 = LoginOutcome.disabled
      ∨ (loginOutcome db uname pw rm nowMs fresh ua ip).1 = LoginOutcome.locked →
      (loginHandler db uname pw rm nowMs fresh ua ip).1.httpStatus = 200
      ∧ (loginHandler db uname pw rm nowMs fresh ua ip).1.code = -1)
    ∧ loginResponse LoginOutcome.userNotFoundOrDeleted
        = loginResponse LoginOutcome.wrongPassword := by
  constructor
  · intro h
    have he : (loginHandler db uname pw rm nowMs fresh ua ip).1
        = loginResponse (loginOutcome db uname pw rm nowMs fresh ua ip).1 := rfl
    rcases h with h | h | h | h <;> rw [he, h] <;> exact ⟨rfl, rfl⟩
  · rfl

/-- Witness for C10: an unknown username produces a business failure over
HTTP 200 with code -1. -/
theorem C10_witness :
    (loginHandler ⟨[], []⟩ ("ghost") ("pw") false 0 ("fr") none none).1.httpStatus = 200
    ∧ (loginHandler ⟨[], []⟩ ("ghost") ("pw") false 0 ("fr") none none).1.code = -1 := by
  exact (C10_login_failures_http200 ⟨[], []⟩ ("ghost") ("pw") false 0 ("fr") none none).1
    (Or.inl (by decide))

end Auth
